import Mathlib

/-!
# Apple Magic Keyboard backlight driver

A shallow embedding of `drivers/hid/hid-apple-magic-backlight.c`.

The driver talks to two collaborators that live outside the file: the HID core
(descriptor parsing, transport start and stop, the report registry, report
submission) and the LED class (registration of the brightness endpoint).  Every
call into them is recorded, in program order, in a trace of `hid_event`s; what
they answer is supplied by a `hid_framework` record, so that every theorem
quantifies over all possible answers.

A `struct hid_report *` held by the driver is embedded as the report it points
to: the two reports have different ids, hence are different objects, and the
driver only reaches them through these two pointers.
-/

namespace AppleMagicBacklight

/-! ## Constants of the driver (lines 19-22) -/

/-- Usage of the keyboard backlight collection, `HID_USAGE_MAGIC_BL` (line 19). -/
def HID_USAGE_MAGIC_BL : Nat := 0xff00000f

/-- Feature report id of the power report (line 21). -/
def APPLE_MAGIC_REPORT_ID_POWER : Nat := 3

/-- Feature report id of the brightness report (line 22). -/
def APPLE_MAGIC_REPORT_ID_BRIGHTNESS : Nat := 1

/-! ## Declarations the driver includes from kernel headers -/

/-- Modelled from the spec: errno `ENODEV`, the "no such device" condition.  Its value
is declared in `errno-base.h` (reached through `linux/errno.h`), which is outside
the driver's file; 19 is the value of the generic Linux ABI. -/
def ENODEV : Int := 19

/-- Modelled from the spec: errno `ENOMEM`, the "out of memory" condition, declared in
`errno-base.h`, which is outside the driver's file; 12 is the value of the generic Linux ABI. -/
def ENOMEM : Int := 12

/-- Modelled from the spec: `LED_FUNCTION_KBD_BACKLIGHT`, the keyboard-backlight function
name of `dt-bindings/leds/common.h`, which is outside the driver's file. -/
def LED_FUNCTION_KBD_BACKLIGHT : String := "kbd_backlight"

/-- Modelled from the spec: the report types of `linux/hid.h` (outside the driver's file); the
driver only names `HID_FEATURE_REPORT`. -/
inductive hid_report_type where
  | HID_INPUT_REPORT
  | HID_OUTPUT_REPORT
  | HID_FEATURE_REPORT
  deriving DecidableEq, Repr

/-- Modelled from the spec: the class requests of `linux/hid.h` (outside the driver's file); the
driver only names `HID_REQ_SET_REPORT`, the "set report" submission. -/
inductive hid_class_request where
  | HID_REQ_GET_REPORT
  | HID_REQ_SET_REPORT
  deriving DecidableEq, Repr

/-- Modelled from the spec: `struct hid_field` of `linux/hid.h` (outside the driver's file), as far
as the driver touches it: the cell `value[0]` (an `s32`) and the declared
`logical_maximum`. -/
structure hid_field where
  value_0 : Int
  logical_maximum : Int
  deriving DecidableEq, Repr

/-- Modelled from the spec: `struct hid_report` of `linux/hid.h` (outside the driver's file).  The
spec describes both reports as "two-field, fixed-width integer encodings"; the driver
dereferences `field[0]` and `field[1]` and nothing else. -/
structure hid_report where
  id : Nat
  field_0 : hid_field
  field_1 : hid_field
  deriving DecidableEq, Repr

/-- Names of the functions that are stored in a `brightness_set_blocking` slot. -/
inductive led_callback where
  | apple_magic_backlight_led_set
  deriving DecidableEq, Repr

/-- Modelled from the spec: `struct led_classdev` of `linux/leds.h` (outside the driver's file), as
far as the driver fills it in (lines 92-94): the endpoint name, the maximum brightness
and the callback.  `max_brightness` is an `unsigned int` there; the field holds the number
that cell contains, between 0 and 4294967295. -/
structure led_classdev where
  name : String
  max_brightness : Int
  brightness_set_blocking : Option led_callback
  deriving DecidableEq, Repr

/-- The driver's record, `struct apple_magic_backlight` (lines 24-28). -/
structure apple_magic_backlight where
  cdev : led_classdev
  brightness : hid_report
  power : hid_report
  deriving DecidableEq, Repr

/-- The device handed to the probe function: the usage of the first collection its report
descriptor declares, which line 71 reads as `hdev->collection[0].usage` once `hid_parse`
has succeeded, and the report registry `hdev->report_enum`, one list of reports per
report type. -/
structure hid_device where
  collection_0_usage : Nat
  report_enum : hid_report_type → List hid_report

/-- One call from the driver into the HID core or the LED class, with the arguments that
matter.  A `hid_hw_request` event carries the report as it stood when it was submitted and
the status the transport had for it. -/
inductive hid_event where
  | hid_parse
  | devm_kzalloc
  | hid_hw_start
  | hid_register_report (type : hid_report_type) (id : Nat) (application : Nat)
  | hid_hw_request (rep : hid_report) (reqtype : hid_class_request) (status : Int)
  | devm_led_classdev_register (cdev : led_classdev)
  | hid_hw_stop
  deriving DecidableEq, Repr

/-- What the collaborators answer: the return codes of `hid_parse`, `hid_hw_start` and
`devm_led_classdev_register`, whether `devm_kzalloc` hands out memory, and the status the
transport has for a submitted report (which `hid_hw_request`, a `void` function, never
hands back). -/
structure hid_framework where
  hid_parse : Int
  devm_kzalloc : Bool
  hid_hw_start : Int
  devm_led_classdev_register : led_classdev → Int
  raw_request : hid_report → Int

/-- Modelled from the spec: `hid_register_report` of the HID core (outside the driver's file),
"resolve ... via the transport's feature-report registry": the report registered under
that type and id, or nothing when it is absent. -/
def hid_register_report (hdev : hid_device) (type : hid_report_type) (id : Nat)
    (_application : Nat) : Option hid_report :=
  (hdev.report_enum type).find? (fun r => r.id == id)

/-- Modelled from the spec: `hid_hw_request` of the HID core (outside the driver's file), "each
encoded report is submitted to the transport as a set-report request".  It returns
nothing; the submission is appended to the trace. -/
def hid_hw_request (raw : hid_report → Int) (tr : List hid_event) (rep : hid_report)
    (reqtype : hid_class_request) : List hid_event :=
  tr ++ [hid_event.hid_hw_request rep reqtype (raw rep)]

/-! ## The protocol controller (lines 30-55) -/

/-- The driver's record together with the trace of calls made so far. -/
structure backlight_state where
  backlight : apple_magic_backlight
  trace : List hid_event

/-- Lines 30-37.  `rate` is a `u8`; `rate << 8` is computed in `int`. -/
def apple_magic_backlight_report_set (raw : hid_report → Int) (rep : hid_report)
    (value : Int) (rate : Nat) (tr : List hid_event) : hid_report × List hid_event :=
  let rep1 : hid_report := { rep with field_0 := { rep.field_0 with value_0 := value } }
  let rep2 : hid_report := { rep1 with field_1 := { rep1.field_1 with value_0 := 0x5e } }
  let rep3 : hid_report :=
    { rep2 with field_1 :=
        { rep2.field_1 with value_0 := Int.lor rep2.field_1.value_0 ((rate <<< 8 : Nat) : Int) } }
  (rep3, hid_hw_request raw tr rep3 hid_class_request.HID_REQ_SET_REPORT)

/-- Lines 39-45.  `rate` is a `char` (unsigned in kernel builds); passing it on as a `u8`
keeps its low eight bits. -/
def apple_magic_backlight_set (raw : hid_report → Int) (s : backlight_state)
    (brightness : Int) (rate : Nat) : backlight_state :=
  let r1 := apple_magic_backlight_report_set raw s.backlight.power
    (if brightness ≠ 0 then 1 else 0) (rate % 256) s.trace
  let s1 : backlight_state := { backlight := { s.backlight with power := r1.1 }, trace := r1.2 }
  if brightness ≠ 0 then
    let r2 := apple_magic_backlight_report_set raw s1.backlight.brightness
      brightness (rate % 256) s1.trace
    { backlight := { s1.backlight with brightness := r2.1 }, trace := r2.2 }
  else
    s1

/-- Lines 47-55: the LED class callback; the first component is the return value. -/
def apple_magic_backlight_led_set (raw : hid_report → Int) (s : backlight_state)
    (brightness : Int) : Int × backlight_state :=
  (0, apple_magic_backlight_set raw s brightness 1)

/-! ## Initialisation (lines 57-103) -/

/-- What a run of the probe function leaves behind: its return value, the driver's record
if line 98 was reached, and the trace of the calls it made. -/
structure probe_result where
  rc : Int
  backlight : Option apple_magic_backlight
  trace : List hid_event

/-- Lines 57-103.  Line 93 stores the `s32` logical maximum in the `unsigned int`
`max_brightness`, which reduces it modulo 2^32. -/
def apple_magic_backlight_probe (fw : hid_framework) (hdev : hid_device) : probe_result :=
  let tr0 : List hid_event := [hid_event.hid_parse]
  if fw.hid_parse ≠ 0 then
    { rc := fw.hid_parse, backlight := none, trace := tr0 }
  else if hdev.collection_0_usage ≠ HID_USAGE_MAGIC_BL then
    { rc := -ENODEV, backlight := none, trace := tr0 }
  else
    let tr1 := tr0 ++ [hid_event.devm_kzalloc]
    if fw.devm_kzalloc = false then
      { rc := -ENOMEM, backlight := none, trace := tr1 }
    else
      let tr2 := tr1 ++ [hid_event.hid_hw_start]
      if fw.hid_hw_start ≠ 0 then
        { rc := fw.hid_hw_start, backlight := none, trace := tr2 }
      else
        let brightness := hid_register_report hdev hid_report_type.HID_FEATURE_REPORT
          APPLE_MAGIC_REPORT_ID_BRIGHTNESS 0
        let power := hid_register_report hdev hid_report_type.HID_FEATURE_REPORT
          APPLE_MAGIC_REPORT_ID_POWER 0
        let tr3 := tr2 ++
          [hid_event.hid_register_report hid_report_type.HID_FEATURE_REPORT
             APPLE_MAGIC_REPORT_ID_BRIGHTNESS 0,
           hid_event.hid_register_report hid_report_type.HID_FEATURE_REPORT
             APPLE_MAGIC_REPORT_ID_POWER 0]
        match brightness, power with
        | some b, some p =>
          let cdev : led_classdev :=
            { name := ":white:" ++ LED_FUNCTION_KBD_BACKLIGHT
              max_brightness := b.field_0.logical_maximum % 4294967296
              brightness_set_blocking := some led_callback.apple_magic_backlight_led_set }
          let s := apple_magic_backlight_set fw.raw_request
            { backlight := { cdev := cdev, brightness := b, power := p }, trace := tr3 } 0 0
          { rc := fw.devm_led_classdev_register s.backlight.cdev
            backlight := some s.backlight
            trace := s.trace ++ [hid_event.devm_led_classdev_register s.backlight.cdev] }
        | _, _ =>
          { rc := -ENODEV, backlight := none, trace := tr3 ++ [hid_event.hid_hw_stop] }

/-! ## Reading a trace -/

/-- The report submissions of a trace, in order: the report as it was submitted and the
kind of request. -/
def hw_requests (tr : List hid_event) : List (hid_report × hid_class_request) :=
  tr.filterMap fun e =>
    match e with
    | hid_event.hid_hw_request rep reqtype _ => some (rep, reqtype)
    | _ => none

/-- The three numbers a submission puts on the wire: report id, field 0, field 1. -/
def wire (q : hid_report × hid_class_request) : Nat × Int × Int :=
  (q.1.id, q.1.field_0.value_0, q.1.field_1.value_0)

/-- The records handed to the LED class registration in a trace, in order. -/
def led_registrations (tr : List hid_event) : List led_classdev :=
  tr.filterMap fun e =>
    match e with
    | hid_event.devm_led_classdev_register cdev => some cdev
    | _ => none

/-- The part of a trace that lies before the first LED class registration. -/
def before_registration (tr : List hid_event) : List hid_event :=
  tr.takeWhile fun e =>
    match e with
    | hid_event.devm_led_classdev_register _ => false
    | _ => true

/-- A request that reaches the controller after initialisation: a direct call of
`apple_magic_backlight_set`, or the LED class callback. -/
inductive backlight_call where
  | set (brightness : Int) (rate : Nat)
  | led_set (brightness : Int)
  deriving DecidableEq, Repr

/-- Serve one request. -/
def backlight_call.run (raw : hid_report → Int) (s : backlight_state) :
    backlight_call → backlight_state
  | backlight_call.set brightness rate => apple_magic_backlight_set raw s brightness rate
  | backlight_call.led_set brightness => (apple_magic_backlight_led_set raw s brightness).2

/-- Serve a sequence of requests, one after the other. -/
def run_calls (raw : hid_report → Int) (s : backlight_state) (calls : List backlight_call) :
    backlight_state :=
  calls.foldl (backlight_call.run raw) s

/-! ## Concrete devices and framework answers used in the examples -/

/-- A feature report with the given id and logical maximum of field 0, holding arbitrary
stale values. -/
def sample_report (id : Nat) (logical_maximum : Int) : hid_report :=
  { id := id
    field_0 := { value_0 := 7, logical_maximum := logical_maximum }
    field_1 := { value_0 := 9, logical_maximum := 65535 } }

/-- The keyboard backlight interface: usage 0xff00000f, brightness report 1 with logical
maximum 255, power report 3. -/
def keyboard_device : hid_device :=
  { collection_0_usage := 0xff00000f
    report_enum := fun t =>
      match t with
      | hid_report_type.HID_FEATURE_REPORT => [sample_report 1 255, sample_report 3 1]
      | _ => [] }

/-- The same interface with a brightness report that declares the logical maximum -1. -/
def keyboard_device_negative_maximum : hid_device :=
  { collection_0_usage := 0xff00000f
    report_enum := fun t =>
      match t with
      | hid_report_type.HID_FEATURE_REPORT => [sample_report 1 (-1), sample_report 3 1]
      | _ => [] }

/-- The same interface without its power report. -/
def keyboard_device_without_power : hid_device :=
  { collection_0_usage := 0xff00000f
    report_enum := fun t =>
      match t with
      | hid_report_type.HID_FEATURE_REPORT => [sample_report 1 255]
      | _ => [] }

/-- A sibling interface with another usage in its first collection. -/
def touchbar_device : hid_device :=
  { collection_0_usage := 0xff120001
    report_enum := fun t =>
      match t with
      | hid_report_type.HID_FEATURE_REPORT => [sample_report 1 255, sample_report 3 1]
      | _ => [] }

/-- Every call into the framework succeeds; the transport reports status 0. -/
def framework_ok : hid_framework :=
  { hid_parse := 0
    devm_kzalloc := true
    hid_hw_start := 0
    devm_led_classdev_register := fun _ => 0
    raw_request := fun _ => 0 }

/-- As framework_ok, except that hid_parse fails with -EINVAL (-22). -/
def framework_parse_error : hid_framework :=
  { framework_ok with hid_parse := -22 }

/-- As framework_ok, except that hid_hw_start fails with -EIO (-5). -/
def framework_start_error : hid_framework :=
  { framework_ok with hid_hw_start := -5 }

/-- As framework_ok, except that the LED class registration fails with -ENOMEM (-12). -/
def framework_registration_error : hid_framework :=
  { framework_ok with devm_led_classdev_register := fun _ => -12 }

/-- The driver's record for the keyboard backlight, with an empty trace. -/
def sample_state : backlight_state :=
  { backlight :=
      { cdev := { name := ":white:kbd_backlight", max_brightness := 255,
                  brightness_set_blocking := some led_callback.apple_magic_backlight_led_set }
        brightness := sample_report 1 255
        power := sample_report 3 1 }
    trace := [] }

/-! ## Helper lemmas -/

/-- Or-ing the base byte with the shifted rate adds them: the two occupy different bits. -/
theorem lor_base_rate (r : Nat) :
    Int.lor 0x5e ((r <<< 8 : Nat) : Int) = ((0x5e + 256 * r : Nat) : Int) := by
  show ((0x5e ||| r <<< 8 : Nat) : Int) = _
  congr 1
  have h := Nat.mul_add_lt_is_or (i := 8) (b := 0x5e) (by decide) r
  rw [Nat.shiftLeft_eq, Nat.lor_comm, Nat.mul_comm r, ← h]
  omega

/-- On natural numbers the same or is the bitwise or of the C expression. -/
theorem lor_base_rate_nat (r : Nat) :
    Int.lor 0x5e ((r <<< 8 : Nat) : Int) = ((0x5e ||| r <<< 8 : Nat) : Int) := rfl

/-- A report resolved under an id carries that id. -/
theorem hid_register_report_id (hdev : hid_device) (type : hid_report_type) (id app : Nat)
    (rep : hid_report) (h : hid_register_report hdev type id app = some rep) : rep.id = id := by
  have h2 := List.find?_some h
  simpa using h2

/-- The path of the probe function on which hid_parse fails (lines 63-65). -/
theorem probe_eq_of_parse_error (fw : hid_framework) (hdev : hid_device)
    (hparse : fw.hid_parse ≠ 0) :
    apple_magic_backlight_probe fw hdev =
      { rc := fw.hid_parse, backlight := none, trace := [hid_event.hid_parse] } := by
  simp [apple_magic_backlight_probe, hparse]

/-- The path of the probe function on which the usage check fails (lines 71-72). -/
theorem probe_eq_of_wrong_usage (fw : hid_framework) (hdev : hid_device)
    (hparse : fw.hid_parse = 0) (husage : hdev.collection_0_usage ≠ HID_USAGE_MAGIC_BL) :
    apple_magic_backlight_probe fw hdev =
      { rc := -ENODEV, backlight := none, trace := [hid_event.hid_parse] } := by
  simp [apple_magic_backlight_probe, hparse, husage]

/-- The path of the probe function on which the allocation fails (lines 74-76). -/
theorem probe_eq_of_alloc_error (fw : hid_framework) (hdev : hid_device)
    (hparse : fw.hid_parse = 0) (husage : hdev.collection_0_usage = HID_USAGE_MAGIC_BL)
    (halloc : fw.devm_kzalloc = false) :
    apple_magic_backlight_probe fw hdev =
      { rc := -ENOMEM, backlight := none
        trace := [hid_event.hid_parse, hid_event.devm_kzalloc] } := by
  simp [apple_magic_backlight_probe, hparse, husage, halloc]

/-- The path of the probe function on which hid_hw_start fails (lines 78-80). -/
theorem probe_eq_of_start_error (fw : hid_framework) (hdev : hid_device)
    (hparse : fw.hid_parse = 0) (husage : hdev.collection_0_usage = HID_USAGE_MAGIC_BL)
    (halloc : fw.devm_kzalloc = true) (hstart : fw.hid_hw_start ≠ 0) :
    apple_magic_backlight_probe fw hdev =
      { rc := fw.hid_hw_start, backlight := none
        trace := [hid_event.hid_parse, hid_event.devm_kzalloc, hid_event.hid_hw_start] } := by
  simp [apple_magic_backlight_probe, hparse, husage, halloc, hstart]

/-- The path of the probe function on which a report is missing (lines 87-90, 100-102). -/
theorem probe_eq_of_missing_report (fw : hid_framework) (hdev : hid_device)
    (hparse : fw.hid_parse = 0) (husage : hdev.collection_0_usage = HID_USAGE_MAGIC_BL)
    (halloc : fw.devm_kzalloc = true) (hstart : fw.hid_hw_start = 0)
    (hmissing :
      hid_register_report hdev hid_report_type.HID_FEATURE_REPORT
        APPLE_MAGIC_REPORT_ID_POWER 0 = none ∨
      hid_register_report hdev hid_report_type.HID_FEATURE_REPORT
        APPLE_MAGIC_REPORT_ID_BRIGHTNESS 0 = none) :
    apple_magic_backlight_probe fw hdev =
      { rc := -ENODEV, backlight := none
        trace :=
          [hid_event.hid_parse, hid_event.devm_kzalloc, hid_event.hid_hw_start,
           hid_event.hid_register_report hid_report_type.HID_FEATURE_REPORT
             APPLE_MAGIC_REPORT_ID_BRIGHTNESS 0,
           hid_event.hid_register_report hid_report_type.HID_FEATURE_REPORT
             APPLE_MAGIC_REPORT_ID_POWER 0,
           hid_event.hid_hw_stop] } := by
  unfold apple_magic_backlight_probe
  simp only [hparse, husage, halloc, hstart]
  rcases hmissing with h | h
  · rw [h]
    cases hid_register_report hdev hid_report_type.HID_FEATURE_REPORT
      APPLE_MAGIC_REPORT_ID_BRIGHTNESS 0 <;> simp
  · rw [h]
    simp

/-- The path of the probe function that reaches the registration (lines 92-98). -/
theorem probe_eq_of_reports (fw : hid_framework) (hdev : hid_device) (b p : hid_report)
    (hparse : fw.hid_parse = 0) (husage : hdev.collection_0_usage = HID_USAGE_MAGIC_BL)
    (halloc : fw.devm_kzalloc = true) (hstart : fw.hid_hw_start = 0)
    (hb : hid_register_report hdev hid_report_type.HID_FEATURE_REPORT
        APPLE_MAGIC_REPORT_ID_BRIGHTNESS 0 = some b)
    (hp : hid_register_report hdev hid_report_type.HID_FEATURE_REPORT
        APPLE_MAGIC_REPORT_ID_POWER 0 = some p) :
    apple_magic_backlight_probe fw hdev =
      { rc := fw.devm_led_classdev_register
          { name := ":white:kbd_backlight",
                max_brightness := b.field_0.logical_maximum % 4294967296,
            brightness_set_blocking := some led_callback.apple_magic_backlight_led_set }
        backlight := some
          { cdev :=
              { name := ":white:kbd_backlight",
                max_brightness := b.field_0.logical_maximum % 4294967296,
                brightness_set_blocking := some led_callback.apple_magic_backlight_led_set }
            brightness := b
            power :=
              { p with field_0 := { p.field_0 with value_0 := 0 }
                       field_1 := { p.field_1 with value_0 := 0x5e } } }
        trace :=
          [hid_event.hid_parse, hid_event.devm_kzalloc, hid_event.hid_hw_start,
           hid_event.hid_register_report hid_report_type.HID_FEATURE_REPORT
             APPLE_MAGIC_REPORT_ID_BRIGHTNESS 0,
           hid_event.hid_register_report hid_report_type.HID_FEATURE_REPORT
             APPLE_MAGIC_REPORT_ID_POWER 0,
           hid_event.hid_hw_request
             { p with field_0 := { p.field_0 with value_0 := 0 }
                      field_1 := { p.field_1 with value_0 := 0x5e } }
             hid_class_request.HID_REQ_SET_REPORT
             (fw.raw_request
               { p with field_0 := { p.field_0 with value_0 := 0 }
                        field_1 := { p.field_1 with value_0 := 0x5e } }),
           hid_event.devm_led_classdev_register
             { name := ":white:kbd_backlight",
                max_brightness := b.field_0.logical_maximum % 4294967296,
               brightness_set_blocking := some led_callback.apple_magic_backlight_led_set }] } := by
  unfold apple_magic_backlight_probe
  have h0 : Int.lor 94 0 = 94 := rfl
  have hname : ":white:" ++ LED_FUNCTION_KBD_BACKLIGHT = ":white:kbd_backlight" := by decide
  simp only [hparse, husage, halloc, hstart, hb, hp]
  simp [apple_magic_backlight_set, apple_magic_backlight_report_set, hid_hw_request, h0, hname]

/-- Every run of the probe function either fails without reaching the registration, or
has passed every check and resolved both reports. -/
theorem probe_cases (fw : hid_framework) (hdev : hid_device) :
    ((apple_magic_backlight_probe fw hdev).rc ≠ 0 ∧
      led_registrations (apple_magic_backlight_probe fw hdev).trace = []) ∨
    ∃ b p : hid_report,
      fw.hid_parse = 0 ∧ hdev.collection_0_usage = HID_USAGE_MAGIC_BL ∧
      fw.devm_kzalloc = true ∧ fw.hid_hw_start = 0 ∧
      hid_register_report hdev hid_report_type.HID_FEATURE_REPORT
        APPLE_MAGIC_REPORT_ID_BRIGHTNESS 0 = some b ∧
      hid_register_report hdev hid_report_type.HID_FEATURE_REPORT
        APPLE_MAGIC_REPORT_ID_POWER 0 = some p := by
  have hnodev : -ENODEV ≠ 0 := by decide
  have hnomem : -ENOMEM ≠ 0 := by decide
  by_cases hparse : fw.hid_parse = 0
  swap
  · left; rw [probe_eq_of_parse_error fw hdev hparse]; exact ⟨hparse, rfl⟩
  by_cases husage : hdev.collection_0_usage = HID_USAGE_MAGIC_BL
  swap
  · left; rw [probe_eq_of_wrong_usage fw hdev hparse husage]; exact ⟨hnodev, rfl⟩
  cases halloc : fw.devm_kzalloc
  · left; rw [probe_eq_of_alloc_error fw hdev hparse husage halloc]; exact ⟨hnomem, rfl⟩
  by_cases hstart : fw.hid_hw_start = 0
  swap
  · left; rw [probe_eq_of_start_error fw hdev hparse husage halloc hstart]; exact ⟨hstart, rfl⟩
  cases hb : hid_register_report hdev hid_report_type.HID_FEATURE_REPORT
      APPLE_MAGIC_REPORT_ID_BRIGHTNESS 0 with
  | none =>
    left
    rw [probe_eq_of_missing_report fw hdev hparse husage halloc hstart (Or.inr hb)]
    exact ⟨hnodev, rfl⟩
  | some b =>
    cases hp : hid_register_report hdev hid_report_type.HID_FEATURE_REPORT
        APPLE_MAGIC_REPORT_ID_POWER 0 with
    | none =>
      left
      rw [probe_eq_of_missing_report fw hdev hparse husage halloc hstart (Or.inl hp)]
      exact ⟨hnodev, rfl⟩
    | some p => exact Or.inr ⟨b, p, hparse, husage, rfl, hstart, rfl, rfl⟩

/-- A registration event of a trace shows among its registrations. -/
theorem mem_led_registrations (tr : List hid_event) (cdev : led_classdev)
    (h : hid_event.devm_led_classdev_register cdev ∈ tr) : cdev ∈ led_registrations tr := by
  unfold led_registrations
  rw [List.mem_filterMap]
  exact ⟨_, h, rfl⟩

/-- One call of apple_magic_backlight_set leaves the LED record, the identity of both
reports and the declared logical maximum of the brightness report as they were. -/
theorem set_keeps_record (raw : hid_report → Int) (s : backlight_state) (brightness : Int)
    (rate : Nat) :
    (apple_magic_backlight_set raw s brightness rate).backlight.cdev = s.backlight.cdev ∧
    (apple_magic_backlight_set raw s brightness rate).backlight.power.id =
      s.backlight.power.id ∧
    (apple_magic_backlight_set raw s brightness rate).backlight.brightness.id =
      s.backlight.brightness.id ∧
    (apple_magic_backlight_set raw s brightness rate).backlight.brightness.field_0.logical_maximum
      = s.backlight.brightness.field_0.logical_maximum := by
  by_cases hb : brightness = 0 <;>
    simp [apple_magic_backlight_set, apple_magic_backlight_report_set, hb]

/-- Any sequence of calls leaves the LED record, the identity of both reports and the
declared logical maximum of the brightness report as they were. -/
theorem run_calls_keeps_record (raw : hid_report → Int) (calls : List backlight_call) :
    ∀ s : backlight_state,
      (run_calls raw s calls).backlight.cdev = s.backlight.cdev ∧
      (run_calls raw s calls).backlight.power.id = s.backlight.power.id ∧
      (run_calls raw s calls).backlight.brightness.id = s.backlight.brightness.id ∧
      (run_calls raw s calls).backlight.brightness.field_0.logical_maximum
        = s.backlight.brightness.field_0.logical_maximum := by
  induction calls with
  | nil => intro s; exact ⟨rfl, rfl, rfl, rfl⟩
  | cons c cs ih =>
    intro s
    have hstep : run_calls raw s (c :: cs) = run_calls raw (backlight_call.run raw s c) cs := rfl
    have hrun : (backlight_call.run raw s c).backlight.cdev = s.backlight.cdev ∧
        (backlight_call.run raw s c).backlight.power.id = s.backlight.power.id ∧
        (backlight_call.run raw s c).backlight.brightness.id = s.backlight.brightness.id ∧
        (backlight_call.run raw s c).backlight.brightness.field_0.logical_maximum
          = s.backlight.brightness.field_0.logical_maximum := by
      cases c with
      | set brightness rate => exact set_keeps_record raw s brightness rate
      | led_set brightness => exact set_keeps_record raw s brightness 1
    obtain ⟨h1, h2, h3, h4⟩ := ih (backlight_call.run raw s c)
    obtain ⟨g1, g2, g3, g4⟩ := hrun
    rw [hstep]
    exact ⟨h1.trans g1, h2.trans g2, h3.trans g3, h4.trans g4⟩

/-! ## The protocol controller: theorems -/

/-- C1: for every record, every nonzero level and every 8-bit rate r, a call of
apple_magic_backlight_set adds exactly two submissions to the trace, both set-report
requests: first the power report with field 0 = 1 and field 1 = 0x5e | (r << 8), then
the brightness report with field 0 = level, unclamped, and the same field 1. -/
theorem set_nonzero_submits_power_then_brightness (raw : hid_report → Int)
    (s : backlight_state) (level : Int) (r : Nat) (hlevel : level ≠ 0) (hr : r < 256) :
    (apple_magic_backlight_set raw s level r).trace =
      s.trace ++
        [hid_event.hid_hw_request
           { s.backlight.power with
               field_0 := { s.backlight.power.field_0 with value_0 := 1 }
               field_1 := { s.backlight.power.field_1 with
                              value_0 := ((0x5e ||| r <<< 8 : Nat) : Int) } }
           hid_class_request.HID_REQ_SET_REPORT
           (raw { s.backlight.power with
               field_0 := { s.backlight.power.field_0 with value_0 := 1 }
               field_1 := { s.backlight.power.field_1 with
                              value_0 := ((0x5e ||| r <<< 8 : Nat) : Int) } }),
         hid_event.hid_hw_request
           { s.backlight.brightness with
               field_0 := { s.backlight.brightness.field_0 with value_0 := level }
               field_1 := { s.backlight.brightness.field_1 with
                              value_0 := ((0x5e ||| r <<< 8 : Nat) : Int) } }
           hid_class_request.HID_REQ_SET_REPORT
           (raw { s.backlight.brightness with
               field_0 := { s.backlight.brightness.field_0 with value_0 := level }
               field_1 := { s.backlight.brightness.field_1 with
                              value_0 := ((0x5e ||| r <<< 8 : Nat) : Int) } })] ∧
    (hw_requests (apple_magic_backlight_set raw s level r).trace).map wire =
      (hw_requests s.trace).map wire ++
        [(s.backlight.power.id, (1 : Int), ((0x5e ||| r <<< 8 : Nat) : Int)),
         (s.backlight.brightness.id, level, ((0x5e ||| r <<< 8 : Nat) : Int))] := by
  have hmod : r % 256 = r := Nat.mod_eq_of_lt hr
  constructor
  · simp [apple_magic_backlight_set, apple_magic_backlight_report_set, hid_hw_request,
      hlevel, hmod, lor_base_rate_nat]
  · simp [apple_magic_backlight_set, apple_magic_backlight_report_set, hid_hw_request,
      hlevel, hmod, lor_base_rate_nat, hw_requests, wire, List.filterMap_append]

/-- C1, at level 300 (above the maximum 255) and rate 255: power (1, 0xff5e), then
brightness (300, 0xff5e). -/
theorem set_nonzero_submits_power_then_brightness_witness :
    (300 : Int) ≠ 0 ∧ 255 < 256 ∧
    (hw_requests (apple_magic_backlight_set (fun _ => 0) sample_state 300 255).trace).map wire =
      [(3, (1 : Int), (0xff5e : Int)), (1, 300, 0xff5e)] :=
  ⟨by decide, by decide,
    (set_nonzero_submits_power_then_brightness (fun _ => 0) sample_state 300 255
      (by decide) (by decide)).2⟩

/-- C2: for every record and every rate, a call of apple_magic_backlight_set with level 0
adds exactly one submission to the trace, a set-report request for the power report with
field 0 = 0; nothing is submitted for the brightness report, whose stored values stay as
they were. -/
theorem set_zero_submits_power_only (raw : hid_report → Int) (s : backlight_state) (r : Nat) :
    (apple_magic_backlight_set raw s 0 r).trace =
      s.trace ++
        [hid_event.hid_hw_request
           { s.backlight.power with
               field_0 := { s.backlight.power.field_0 with value_0 := 0 }
               field_1 := { s.backlight.power.field_1 with
                              value_0 := ((0x5e ||| (r % 256) <<< 8 : Nat) : Int) } }
           hid_class_request.HID_REQ_SET_REPORT
           (raw { s.backlight.power with
               field_0 := { s.backlight.power.field_0 with value_0 := 0 }
               field_1 := { s.backlight.power.field_1 with
                              value_0 := ((0x5e ||| (r % 256) <<< 8 : Nat) : Int) } })] ∧
    (hw_requests (apple_magic_backlight_set raw s 0 r).trace).map wire =
      (hw_requests s.trace).map wire ++
        [(s.backlight.power.id, (0 : Int), ((0x5e ||| (r % 256) <<< 8 : Nat) : Int))] ∧
    (apple_magic_backlight_set raw s 0 r).backlight.brightness = s.backlight.brightness := by
  refine ⟨?_, ?_, ?_⟩
  · simp [apple_magic_backlight_set, apple_magic_backlight_report_set, hid_hw_request,
      lor_base_rate_nat]
  · simp [apple_magic_backlight_set, apple_magic_backlight_report_set, hid_hw_request,
      lor_base_rate_nat, hw_requests, wire, List.filterMap_append]
  · simp [apple_magic_backlight_set]

/-- C9: for every 8-bit rate r and every value, the field 1 that
apple_magic_backlight_report_set writes and submits is the 16-bit word 0x5e + 256 * r:
it lies in 0 .. 65535, its low byte is 0x5e, its high byte is r, and it is within the
range of a signed 32-bit cell. -/
theorem report_set_field_1_packed (raw : hid_report → Int) (rep : hid_report) (value : Int)
    (r : Nat) (tr : List hid_event) (hr : r < 256) :
    (apple_magic_backlight_report_set raw rep value r tr).2 =
      tr ++ [hid_event.hid_hw_request (apple_magic_backlight_report_set raw rep value r tr).1
               hid_class_request.HID_REQ_SET_REPORT
               (raw (apple_magic_backlight_report_set raw rep value r tr).1)] ∧
    (apple_magic_backlight_report_set raw rep value r tr).1.field_1.value_0 =
      0x5e + 256 * (r : Int) ∧
    0 ≤ (apple_magic_backlight_report_set raw rep value r tr).1.field_1.value_0 ∧
    (apple_magic_backlight_report_set raw rep value r tr).1.field_1.value_0 < 65536 ∧
    (apple_magic_backlight_report_set raw rep value r tr).1.field_1.value_0.toNat &&& 0xff
      = 0x5e ∧
    (apple_magic_backlight_report_set raw rep value r tr).1.field_1.value_0.toNat >>> 8 = r ∧
    (apple_magic_backlight_report_set raw rep value r tr).1.field_1.value_0 < 2 ^ 31 := by
  have hv : (apple_magic_backlight_report_set raw rep value r tr).1.field_1.value_0 =
      ((0x5e + 256 * r : Nat) : Int) := by
    simp only [apple_magic_backlight_report_set]
    exact lor_base_rate r
  have hand : (0x5e + 256 * r) &&& 0xff = (0x5e + 256 * r) % 2 ^ 8 :=
    Nat.and_pow_two_sub_one_eq_mod (0x5e + 256 * r) 8
  refine ⟨rfl, ?_, ?_, ?_, ?_, ?_, ?_⟩
  · rw [hv]; push_cast; ring
  · rw [hv]; exact Int.natCast_nonneg _
  · rw [hv]; norm_cast; omega
  · rw [hv, Int.toNat_natCast, hand]; omega
  · rw [hv, Int.toNat_natCast, Nat.shiftRight_eq_div_pow]; omega
  · rw [hv]; norm_cast; omega

/-- C9, at rate 255: the word is 0xff5e. -/
theorem report_set_field_1_packed_witness :
    255 < 256 ∧
    (apple_magic_backlight_report_set (fun _ => 0) (sample_report 3 1) 1 255 []).1.field_1.value_0
      = 0xff5e :=
  ⟨by decide,
    (report_set_field_1_packed (fun _ => 0) (sample_report 3 1) 1 255 [] (by decide)).2.1⟩

/-! ## Initialisation: theorems -/

/-- C3: when descriptor parse, usage check, allocation and transport start have all
succeeded and the power report (feature id 3) or the brightness report (feature id 1)
is absent, the probe function returns -ENODEV, its last call is hid_hw_stop, and it has
submitted no report and registered no LED. -/
theorem probe_missing_report_stops_transport (fw : hid_framework) (hdev : hid_device)
    (hparse : fw.hid_parse = 0) (husage : hdev.collection_0_usage = HID_USAGE_MAGIC_BL)
    (halloc : fw.devm_kzalloc = true) (hstart : fw.hid_hw_start = 0)
    (hmissing :
      hid_register_report hdev hid_report_type.HID_FEATURE_REPORT
        APPLE_MAGIC_REPORT_ID_POWER 0 = none ∨
      hid_register_report hdev hid_report_type.HID_FEATURE_REPORT
        APPLE_MAGIC_REPORT_ID_BRIGHTNESS 0 = none) :
    (apple_magic_backlight_probe fw hdev).rc = -ENODEV ∧
    hid_event.hid_hw_stop ∈ (apple_magic_backlight_probe fw hdev).trace ∧
    (apple_magic_backlight_probe fw hdev).trace.getLast? = some hid_event.hid_hw_stop ∧
    hw_requests (apple_magic_backlight_probe fw hdev).trace = [] ∧
    led_registrations (apple_magic_backlight_probe fw hdev).trace = [] ∧
    (apple_magic_backlight_probe fw hdev).trace =
      [hid_event.hid_parse, hid_event.devm_kzalloc, hid_event.hid_hw_start,
       hid_event.hid_register_report hid_report_type.HID_FEATURE_REPORT 1 0,
       hid_event.hid_register_report hid_report_type.HID_FEATURE_REPORT 3 0,
       hid_event.hid_hw_stop] := by
  rw [probe_eq_of_missing_report fw hdev hparse husage halloc hstart hmissing]
  exact ⟨rfl, by decide, rfl, rfl, rfl, rfl⟩

/-- C3, on the keyboard interface without its power report. -/
theorem probe_missing_report_stops_transport_witness :
    framework_ok.hid_parse = 0 ∧
    keyboard_device_without_power.collection_0_usage = HID_USAGE_MAGIC_BL ∧
    framework_ok.devm_kzalloc = true ∧ framework_ok.hid_hw_start = 0 ∧
    hid_register_report keyboard_device_without_power hid_report_type.HID_FEATURE_REPORT
      APPLE_MAGIC_REPORT_ID_POWER 0 = none ∧
    (apple_magic_backlight_probe framework_ok keyboard_device_without_power).rc = -19 ∧
    hid_event.hid_hw_stop ∈
      (apple_magic_backlight_probe framework_ok keyboard_device_without_power).trace :=
  ⟨rfl, rfl, rfl, rfl, rfl,
    (probe_missing_report_stops_transport framework_ok keyboard_device_without_power
      rfl rfl rfl rfl (Or.inl rfl)).1,
    (probe_missing_report_stops_transport framework_ok keyboard_device_without_power
      rfl rfl rfl rfl (Or.inl rfl)).2.1⟩

/-- C4 as stated fails: on a device with another first usage whose descriptor does not
parse, the probe function returns the error of hid_parse (-22 here), not -ENODEV. -/
theorem probe_wrong_usage_parse_error_counterexample :
    touchbar_device.collection_0_usage ≠ HID_USAGE_MAGIC_BL ∧
    (apple_magic_backlight_probe framework_parse_error touchbar_device).rc = -22 ∧
    (apple_magic_backlight_probe framework_parse_error touchbar_device).rc ≠ -ENODEV := by
  decide

/-- C4, amended: for every device whose first usage collection is not HID_USAGE_MAGIC_BL,
the probe function fails: it returns -ENODEV whenever hid_parse succeeded (and the error
of hid_parse otherwise), and in either case its only call is hid_parse, so it allocates
nothing, starts no transport, submits no report and registers no LED. -/
theorem probe_wrong_usage_rejected (fw : hid_framework) (hdev : hid_device)
    (husage : hdev.collection_0_usage ≠ HID_USAGE_MAGIC_BL) :
    (apple_magic_backlight_probe fw hdev).rc ≠ 0 ∧
    (fw.hid_parse = 0 → (apple_magic_backlight_probe fw hdev).rc = -ENODEV) ∧
    (fw.hid_parse ≠ 0 → (apple_magic_backlight_probe fw hdev).rc = fw.hid_parse) ∧
    (apple_magic_backlight_probe fw hdev).trace = [hid_event.hid_parse] ∧
    hid_event.devm_kzalloc ∉ (apple_magic_backlight_probe fw hdev).trace ∧
    hid_event.hid_hw_start ∉ (apple_magic_backlight_probe fw hdev).trace ∧
    hw_requests (apple_magic_backlight_probe fw hdev).trace = [] ∧
    led_registrations (apple_magic_backlight_probe fw hdev).trace = [] ∧
    (apple_magic_backlight_probe fw hdev).backlight = none := by
  by_cases hparse : fw.hid_parse = 0
  · rw [probe_eq_of_wrong_usage fw hdev hparse husage]
    exact ⟨by decide, fun _ => rfl, fun h => absurd hparse h, rfl, by decide, by decide,
      rfl, rfl, rfl⟩
  · rw [probe_eq_of_parse_error fw hdev hparse]
    exact ⟨hparse, fun h => absurd h hparse, fun _ => rfl, rfl, by simp, by simp,
      rfl, rfl, rfl⟩

/-- C4 amended, on the sibling interface with a descriptor that parses. -/
theorem probe_wrong_usage_rejected_witness :
    touchbar_device.collection_0_usage ≠ HID_USAGE_MAGIC_BL ∧
    (apple_magic_backlight_probe framework_ok touchbar_device).rc = -19 ∧
    (apple_magic_backlight_probe framework_ok touchbar_device).trace = [hid_event.hid_parse] :=
  ⟨by decide,
    (probe_wrong_usage_rejected framework_ok touchbar_device (by decide)).2.1 rfl,
    (probe_wrong_usage_rejected framework_ok touchbar_device (by decide)).2.2.2.1⟩

/-- C5 fails on the code: with both reports present and a failing LED class registration
(-ENOMEM here) the probe function returns that error after hid_hw_start succeeded, and
hid_hw_stop was never called; the missing-report path does call it. -/
theorem probe_registration_error_leaves_transport_started :
    (apple_magic_backlight_probe framework_registration_error keyboard_device).rc = -12 ∧
    (apple_magic_backlight_probe framework_registration_error keyboard_device).rc ≠ 0 ∧
    framework_registration_error.hid_hw_start = 0 ∧
    hid_event.hid_hw_start ∈
      (apple_magic_backlight_probe framework_registration_error keyboard_device).trace ∧
    hid_event.hid_hw_stop ∉
      (apple_magic_backlight_probe framework_registration_error keyboard_device).trace ∧
    hid_event.hid_hw_stop ∈
      (apple_magic_backlight_probe framework_ok keyboard_device_without_power).trace := by
  decide

/-- C6: in every run of the probe function that calls the LED class registration, exactly
one report has been submitted before that call, a set-report request for the power
report (id 3) with field 0 = 0 and field 1 = 0x5e, whatever the reports held before;
the run submits nothing else, so no brightness report. -/
theorem probe_forces_off_before_registration (fw : hid_framework) (hdev : hid_device)
    (cdev : led_classdev)
    (hreg : hid_event.devm_led_classdev_register cdev ∈
      (apple_magic_backlight_probe fw hdev).trace) :
    (hw_requests (before_registration (apple_magic_backlight_probe fw hdev).trace)).map
        (fun q => (wire q, q.2)) =
      [((APPLE_MAGIC_REPORT_ID_POWER, (0 : Int), (0x5e : Int)),
        hid_class_request.HID_REQ_SET_REPORT)] ∧
    hw_requests (apple_magic_backlight_probe fw hdev).trace =
      hw_requests (before_registration (apple_magic_backlight_probe fw hdev).trace) ∧
    hw_requests (apple_magic_backlight_probe fw hdev).trace =
      (hid_register_report hdev hid_report_type.HID_FEATURE_REPORT
          APPLE_MAGIC_REPORT_ID_POWER 0).toList.map
        (fun p =>
          ({ p with field_0 := { p.field_0 with value_0 := 0 }
                    field_1 := { p.field_1 with value_0 := 0x5e } },
           hid_class_request.HID_REQ_SET_REPORT)) := by
  rcases probe_cases fw hdev with ⟨_, hnone⟩ | ⟨b, p, hparse, husage, halloc, hstart, hb, hp⟩
  · have hmem := mem_led_registrations _ cdev hreg
    rw [hnone] at hmem
    cases hmem
  · have hid := hid_register_report_id hdev _ _ _ p hp
    rw [probe_eq_of_reports fw hdev b p hparse husage halloc hstart hb hp, hp]
    simp [hw_requests, before_registration, wire, hid, List.takeWhile]

/-- C6, end to end: usage 0xff00000f, power report 3 and brightness report 1 (logical
maximum 255) present, every framework call succeeds: the probe function returns 0 and
the one recorded write is power (0, 0x5e). -/
theorem probe_forces_off_before_registration_witness :
    hid_event.devm_led_classdev_register
        { name := ":white:kbd_backlight", max_brightness := 255,
          brightness_set_blocking := some led_callback.apple_magic_backlight_led_set } ∈
      (apple_magic_backlight_probe framework_ok keyboard_device).trace ∧
    (apple_magic_backlight_probe framework_ok keyboard_device).rc = 0 ∧
    (hw_requests (before_registration
        (apple_magic_backlight_probe framework_ok keyboard_device).trace)).map
        (fun q => (wire q, q.2)) =
      [((3, (0 : Int), (0x5e : Int)), hid_class_request.HID_REQ_SET_REPORT)] ∧
    (hw_requests (apple_magic_backlight_probe framework_ok keyboard_device).trace).length = 1 :=
  ⟨by decide, by decide,
    (probe_forces_off_before_registration framework_ok keyboard_device
      { name := ":white:kbd_backlight", max_brightness := 255,
        brightness_set_blocking := some led_callback.apple_magic_backlight_led_set }
      (by decide)).1,
    by decide⟩

/-- C7 as stated fails: on a device whose brightness report declares the logical maximum
-1 the probe function succeeds, and the max_brightness it hands to the LED class
registration is 4294967295, the value -1 takes in an unsigned int, not -1. -/
theorem probe_max_brightness_negative_maximum_counterexample :
    (apple_magic_backlight_probe framework_ok keyboard_device_negative_maximum).rc = 0 ∧
    (hid_register_report keyboard_device_negative_maximum hid_report_type.HID_FEATURE_REPORT
        APPLE_MAGIC_REPORT_ID_BRIGHTNESS 0).map (fun b => b.field_0.logical_maximum)
      = some (-1) ∧
    (led_registrations
        (apple_magic_backlight_probe framework_ok keyboard_device_negative_maximum).trace).map
      (fun c => c.max_brightness) = [4294967295] ∧
    (4294967295 : Int) ≠ -1 := by
  decide

/-- C7, amended: in every run of the probe function that returns 0, the brightness report
(id 1) was resolved, exactly one record was handed to the LED class registration, and
its max_brightness is the logical maximum of field 0 of that report converted to an
unsigned int, that is reduced modulo 2^32: the logical maximum itself whenever that is
not negative.  Any sequence of later calls of apple_magic_backlight_set and
apple_magic_backlight_led_set, from any trace, leaves the LED record (max_brightness
included) and the two reports the record points to (ids 3 and 1) the same. -/
theorem probe_max_brightness_fixed (fw : hid_framework) (hdev : hid_device)
    (hok : (apple_magic_backlight_probe fw hdev).rc = 0) :
    ∃ bl b : _,
      (apple_magic_backlight_probe fw hdev).backlight = some bl ∧
      hid_register_report hdev hid_report_type.HID_FEATURE_REPORT
        APPLE_MAGIC_REPORT_ID_BRIGHTNESS 0 = some b ∧
      led_registrations (apple_magic_backlight_probe fw hdev).trace = [bl.cdev] ∧
      bl.cdev.max_brightness = b.field_0.logical_maximum % 4294967296 ∧
      (0 ≤ b.field_0.logical_maximum → b.field_0.logical_maximum < 2147483648 →
        bl.cdev.max_brightness = b.field_0.logical_maximum) ∧
      ∀ (raw : hid_report → Int) (tr : List hid_event) (calls : List backlight_call),
        (run_calls raw { backlight := bl, trace := tr } calls).backlight.cdev.max_brightness
          = bl.cdev.max_brightness ∧
        (run_calls raw { backlight := bl, trace := tr } calls).backlight.cdev = bl.cdev ∧
        (run_calls raw { backlight := bl, trace := tr } calls).backlight.power.id
          = APPLE_MAGIC_REPORT_ID_POWER ∧
        (run_calls raw { backlight := bl, trace := tr } calls).backlight.brightness.id
          = APPLE_MAGIC_REPORT_ID_BRIGHTNESS ∧
        (run_calls raw { backlight := bl, trace := tr } calls).backlight.brightness.field_0.logical_maximum
          = b.field_0.logical_maximum := by
  rcases probe_cases fw hdev with ⟨hne, _⟩ | ⟨b, p, hparse, husage, halloc, hstart, hb, hp⟩
  · exact absurd hok hne
  · have hidp := hid_register_report_id hdev _ _ _ p hp
    have hidb := hid_register_report_id hdev _ _ _ b hb
    rw [probe_eq_of_reports fw hdev b p hparse husage halloc hstart hb hp]
    refine ⟨_, b, rfl, hb, rfl, rfl, ?_, ?_⟩
    · intro h0 h1
      show b.field_0.logical_maximum % 4294967296 = b.field_0.logical_maximum
      omega
    · intro raw tr calls
      obtain ⟨h1, h2, h3, h4⟩ := run_calls_keeps_record raw calls
        { backlight :=
            { cdev :=
                { name := ":white:kbd_backlight",
                  max_brightness := b.field_0.logical_maximum % 4294967296,
                  brightness_set_blocking := some led_callback.apple_magic_backlight_led_set }
              brightness := b
              power :=
                { p with field_0 := { p.field_0 with value_0 := 0 }
                         field_1 := { p.field_1 with value_0 := 0x5e } } }
          trace := tr }
      refine ⟨?_, h1, ?_, ?_, h4⟩
      · rw [h1]
      · rw [h2]; exact hidp
      · rw [h3]; exact hidb

/-- C7 amended, end to end: logical maximum 255 gives a registered maximum of 255, still
255 after a few requests. -/
theorem probe_max_brightness_fixed_witness :
    (apple_magic_backlight_probe framework_ok keyboard_device).rc = 0 ∧
    (led_registrations (apple_magic_backlight_probe framework_ok keyboard_device).trace).map
      (fun c => c.max_brightness) = [255] ∧
    ∃ bl b : _,
      (apple_magic_backlight_probe framework_ok keyboard_device).backlight = some bl ∧
      hid_register_report keyboard_device hid_report_type.HID_FEATURE_REPORT
        APPLE_MAGIC_REPORT_ID_BRIGHTNESS 0 = some b ∧
      b.field_0.logical_maximum = 255 ∧
      bl.cdev.max_brightness = b.field_0.logical_maximum ∧
      (run_calls (fun _ => 0) { backlight := bl, trace := [] }
          [backlight_call.led_set 300, backlight_call.set 0 7,
           backlight_call.led_set 1]).backlight.cdev.max_brightness = 255 := by
  refine ⟨by decide, by decide, ?_⟩
  obtain ⟨bl, b, h1, h2, _, h4, h5, h6⟩ :=
    probe_max_brightness_fixed framework_ok keyboard_device (by decide)
  have hb : b = sample_report 1 255 := by
    have h2x : hid_register_report keyboard_device hid_report_type.HID_FEATURE_REPORT
        APPLE_MAGIC_REPORT_ID_BRIGHTNESS 0 = some (sample_report 1 255) := by decide
    rw [h2x] at h2
    exact (Option.some.inj h2).symm
  have hmax : b.field_0.logical_maximum = 255 := by rw [hb]; rfl
  have heq : bl.cdev.max_brightness = b.field_0.logical_maximum :=
    h5 (by rw [hmax]; decide) (by rw [hmax]; decide)
  refine ⟨bl, b, h1, h2, hmax, heq, ?_⟩
  rw [(h6 (fun _ => 0) [] _).1, heq, hmax]

/-- C10: for every non-zero error code rc: when hid_parse returns rc, the probe function
returns rc and has made no other call; when parse, usage check and allocation succeed and
hid_hw_start returns rc, the probe function returns rc and has made no call after
hid_hw_start: no report is resolved or submitted, nothing is registered, and hid_hw_stop
is not called. -/
theorem probe_propagates_transport_errors (fw : hid_framework) (hdev : hid_device)
    (rc : Int) (hrc : rc ≠ 0) :
    (fw.hid_parse = rc →
      (apple_magic_backlight_probe fw hdev).rc = rc ∧
      (apple_magic_backlight_probe fw hdev).trace = [hid_event.hid_parse] ∧
      hid_event.devm_kzalloc ∉ (apple_magic_backlight_probe fw hdev).trace ∧
      hid_event.hid_hw_start ∉ (apple_magic_backlight_probe fw hdev).trace ∧
      hw_requests (apple_magic_backlight_probe fw hdev).trace = [] ∧
      led_registrations (apple_magic_backlight_probe fw hdev).trace = []) ∧
    (fw.hid_parse = 0 → hdev.collection_0_usage = HID_USAGE_MAGIC_BL →
      fw.devm_kzalloc = true → fw.hid_hw_start = rc →
      (apple_magic_backlight_probe fw hdev).rc = rc ∧
      (apple_magic_backlight_probe fw hdev).trace =
        [hid_event.hid_parse, hid_event.devm_kzalloc, hid_event.hid_hw_start] ∧
      (∀ type id app,
        hid_event.hid_register_report type id app ∉
          (apple_magic_backlight_probe fw hdev).trace) ∧
      hw_requests (apple_magic_backlight_probe fw hdev).trace = [] ∧
      led_registrations (apple_magic_backlight_probe fw hdev).trace = [] ∧
      hid_event.hid_hw_stop ∉ (apple_magic_backlight_probe fw hdev).trace) := by
  constructor
  · intro hparse
    have hne : fw.hid_parse ≠ 0 := by rw [hparse]; exact hrc
    rw [probe_eq_of_parse_error fw hdev hne]
    exact ⟨hparse, rfl, by simp, by simp, rfl, rfl⟩
  · intro hparse husage halloc hstart
    have hne : fw.hid_hw_start ≠ 0 := by rw [hstart]; exact hrc
    rw [probe_eq_of_start_error fw hdev hparse husage halloc hne]
    exact ⟨hstart, rfl, by simp, rfl, rfl, by simp⟩

/-- C10, with hid_parse failing with -22 and with hid_hw_start failing with -5. -/
theorem probe_propagates_transport_errors_witness :
    (-22 : Int) ≠ 0 ∧ (-5 : Int) ≠ 0 ∧
    (apple_magic_backlight_probe framework_parse_error keyboard_device).rc = -22 ∧
    (apple_magic_backlight_probe framework_parse_error keyboard_device).trace
      = [hid_event.hid_parse] ∧
    (apple_magic_backlight_probe framework_start_error keyboard_device).rc = -5 ∧
    (apple_magic_backlight_probe framework_start_error keyboard_device).trace
      = [hid_event.hid_parse, hid_event.devm_kzalloc, hid_event.hid_hw_start] :=
  ⟨by decide, by decide,
    ((probe_propagates_transport_errors framework_parse_error keyboard_device (-22)
      (by decide)).1 rfl).1,
    ((probe_propagates_transport_errors framework_parse_error keyboard_device (-22)
      (by decide)).1 rfl).2.1,
    ((probe_propagates_transport_errors framework_start_error keyboard_device (-5)
      (by decide)).2 rfl rfl rfl rfl).1,
    ((probe_propagates_transport_errors framework_start_error keyboard_device (-5)
      (by decide)).2 rfl rfl rfl rfl).2.1⟩

end AppleMagicBacklight
